import Mathlib

/-!
Verification of the chat front end in `src/app.py` (Brahmaanu UI).

The file shallowly embeds the three backend-facing functions of `app.py` —
`check_backend`, `fetch_sample_questions` and `call_api` — as pure Lean
functions.  Python's dynamic values are modelled by the inductive type `Py`;
exceptions are modelled explicitly with `Except Exc`, so that "never raises"
is a genuine theorem about the embedding rather than a typing artifact.
The outcome of each HTTP request issued by the `requests` library is an
explicit parameter (`PostOutcome` / `GetOutcome`), since the network is the
environment of the program.  Mutation of the transcript list in the
exception handlers is modelled separately with an explicit heap of lists
(`ListHeap`), mirroring `new_hist = list(chat_history); new_hist.append(...)`.
-/

namespace BrahmaanuUI

/-- A Python value, covering the shapes that flow through `app.py`:
strings, booleans, integers, `None`, lists, tuples, and string-keyed dicts
(JSON objects).  Dicts are association lists with the keys unique in the
order Python would iterate them. -/
inductive Py where
  | none
  | bool (b : Bool)
  | int (n : Int)
  | str (s : String)
  | list (xs : List Py)
  | tuple (xs : List Py)
  | dict (kvs : List (String × Py))

/-- Python truthiness (`bool(x)`) for the modelled values: `None` and empty
containers and the empty string and zero are falsy. -/
def Py.truthy : Py → Bool
  | .none => false
  | .bool b => b
  | .int n => n != 0
  | .str s => s != ""
  | .list xs => !xs.isEmpty
  | .tuple xs => !xs.isEmpty
  | .dict kvs => !kvs.isEmpty

/-- Python's `a or b`: `a` when `a` is truthy, else `b`. -/
def pyOr (a b : Py) : Py := if a.truthy then a else b

/-- Python `dict.get(k, dflt)` on a string-keyed dict given as an
association list (first binding wins, as keys are unique). -/
def dictGet (kvs : List (String × Py)) (k : String) (dflt : Py) : Py :=
  match kvs.find? (fun p => p.1 == k) with
  | Option.some p => p.2
  | Option.none => dflt

/-- Python `x == "lit"` where `lit` is a string literal: true exactly when
`x` is a string equal to it (comparison of a non-string builtin value with a
string is `False`, never an error). -/
def pyEqStr : Py → String → Bool
  | .str s, t => s == t
  | _, _ => false

/-- The Python exceptions that can arise in `app.py`, flattened:
`requests.exceptions.ConnectionError`, `requests.exceptions.Timeout`,
`requests.exceptions.HTTPError` (carrying `e.response.status_code`),
`TypeError` (e.g. `list(None)`), `AttributeError` (e.g. `.keys()` /
`.get` on a non-dict), the JSON decode error raised by `resp.json()`,
and any other `Exception`.  `Exc.timeout` stands for an exception that the
`except Timeout` clause of `call_api` catches, i.e. a `Timeout` that is not
also a `ConnectionError`. -/
inductive Exc where
  | connectionError
  | timeout
  | httpError (statusCode : Nat)
  | typeError
  | attributeError
  | jsonError
  | other
deriving DecidableEq, Repr

/-- Outcome of `requests.post(url, json=payload, timeout=60,
allow_redirects=False)`: either the call raises, or it yields a response
with a status code, a redirect flag, and a body that `resp.json()` parses
to a `Py` value (`Option.none` when the body is not valid JSON, in which
case `resp.json()` raises). -/
inductive PostOutcome where
  | raises (e : Exc)
  | resp (statusCode : Nat) (isRedirect : Bool) (body : Option Py)

/-- Outcome of a `requests.get(url, timeout=10)` call, analogously. -/
inductive GetOutcome where
  | raises (e : Exc)
  | resp (statusCode : Nat) (body : Option Py)

/-- `resp.raise_for_status()`: raises `HTTPError` with the response's status
code exactly when `400 <= status_code < 600`. -/
def raise_for_status (s : Nat) : Except Exc Unit :=
  if 400 ≤ s ∧ s < 600 then Except.error (Exc.httpError s) else Except.ok ()

/-- `resp.ok`: true when `status_code < 400`. -/
def respOk (s : Nat) : Bool := s < 400

/-- `resp.json()`: the parsed body, or the JSON decode error. -/
def respJson : Option Py → Except Exc Py
  | Option.some v => Except.ok v
  | Option.none => Except.error Exc.jsonError

/-- `list(x)`: succeeds on the iterable modelled values (a list or tuple
yields its elements, a string its characters, a dict its keys) and raises
`TypeError` otherwise (`None`, booleans, integers). -/
def pyListOf : Py → Except Exc (List Py)
  | .str s => Except.ok (s.toList.map (fun c => Py.str (String.mk [c])))
  | .list xs => Except.ok xs
  | .tuple xs => Except.ok xs
  | .dict kvs => Except.ok (kvs.map (fun p => Py.str p.1))
  | _ => Except.error Exc.typeError

/-! ### `check_backend` (src/app.py lines 40-48) -/

/-- The `try` block of `check_backend`: perform the GET, `raise_for_status`,
then evaluate `r.ok and r.json().get("status") == "ok"` (the right conjunct
is only evaluated when `r.ok`; `.get` on a non-dict raises
`AttributeError`).  Returns the condition's value, or the escaping
exception. -/
def check_backend_try (oc : GetOutcome) : Except Exc Bool :=
  match oc with
  | GetOutcome.raises e => Except.error e
  | GetOutcome.resp s body =>
    match raise_for_status s with
    | Except.error e => Except.error e
    | Except.ok _ =>
      if respOk s then
        match respJson body with
        | Except.error e => Except.error e
        | Except.ok (Py.dict kvs) =>
            Except.ok (pyEqStr (dictGet kvs "status" Py.none) "ok")
        | Except.ok _ => Except.error Exc.attributeError
      else
        Except.ok false

/-- `check_backend`: returns `"backend=READY"` when the `try` block reaches
the `return` with a true condition; every exception is swallowed by
`except Exception: pass` and, like a false condition, falls through to
`return "backend=DOWN"`. -/
def check_backend (oc : GetOutcome) : String :=
  match check_backend_try oc with
  | Except.ok true => "backend=READY"
  | _ => "backend=DOWN"

/-! ### `fetch_sample_questions` (src/app.py lines 54-72) -/

/-- The static fallback list of sample questions, verbatim from the
source. -/
def fallback_questions : List String :=
  [ "Where is the observatory located?",
    "Describe the governance settings for observing cycle length, cycle start date, cycle end date, and director’s discretionary time per cycle?",
    "Outline the key policies for observing modes, observing queue categories, and remote observation support?",
    "Summarize the discovery details for Dhruva Exoplanet and Aditi Pulsar?",
    "Give the deepimager exposure time range?",
    "Summarize the key calibration settings for flat field frames per filter per night, flat field illumination source, viscam twilight flat window, and flat field exposure level?" ]

/-- The fallback list as the Python value the function returns. -/
def fallbackPy : Py := Py.list (fallback_questions.map Py.str)

/-- `fetch_sample_questions`: GET `/sample_questions`; on a response that
passes `raise_for_status` and parses to a JSON list, return that list;
on any exception, or on a non-list body (the `isinstance` test fails and
control falls out of the `try`), return the static fallback. -/
def fetch_sample_questions (oc : GetOutcome) : Py :=
  match oc with
  | GetOutcome.raises _ => fallbackPy
  | GetOutcome.resp s body =>
    match raise_for_status s with
    | Except.error _ => fallbackPy
    | Except.ok _ =>
      match respJson body with
      | Except.error _ => fallbackPy
      | Except.ok (Py.list xs) => Py.list xs
      | Except.ok _ => fallbackPy

/-! ### `call_api` (src/app.py lines 78-142) -/

/-- The request payload built at the top of `call_api` (lines 91-97):
`{"user_msg": user_msg, "chat_history": chat_history or [], "mode": mode,
"use_history": use_history, "state": state or {}}`. -/
def call_api_payload (user_msg chat_history mode use_history state : Py) : Py :=
  Py.dict
    [ ("user_msg", user_msg),
      ("chat_history", pyOr chat_history (Py.list [])),
      ("mode", mode),
      ("use_history", use_history),
      ("state", pyOr state (Py.dict [])) ]

/-- The `try` block of `call_api`: the POST itself may raise; otherwise
`raise_for_status`, then `resp.json()`, then `list(data.keys())` (which
raises `AttributeError` on a non-dict body), then the success tuple
`(user_msg, data.get("chat_history", chat_history),
data.get("state", state), data.get("status", ""))`.  The redirect check
only prints and cannot raise. -/
def call_api_try (user_msg chat_history state : Py) (oc : PostOutcome) :
    Except Exc (Py × Py × Py × Py) :=
  match oc with
  | PostOutcome.raises e => Except.error e
  | PostOutcome.resp s _ body =>
    match raise_for_status s with
    | Except.error e => Except.error e
    | Except.ok _ =>
      match respJson body with
      | Except.error e => Except.error e
      | Except.ok (Py.dict kvs) =>
          Except.ok
            ( user_msg,
              dictGet kvs "chat_history" chat_history,
              dictGet kvs "state" state,
              dictGet kvs "status" (Py.str "") )
      | Except.ok _ => Except.error Exc.attributeError

/-- Fixed message of the `except ConnectionError` handler. -/
def connRefusedMsg : String :=
  "Backend not reachable (connection refused). Please retry when the backend server is running..."

/-- Fixed message of the `except Timeout` handler. -/
def timeoutMsg : String := "Backend took too long. Please try again later."

/-- Message of the `except HTTPError` handler, embedding
`e.response.status_code`. -/
def httpErrMsg (statusCode : Nat) : String :=
  "Backend returned HTTP Error : " ++ toString statusCode ++ "."

/-- Fixed message of the final `except Exception` handler. -/
def unknownMsg : String := "Unknown client error."

/-- The message chosen by `call_api`'s `except` chain for each exception:
`ConnectionError`, `Timeout` and `HTTPError` have dedicated handlers and
everything else falls to `except Exception`. -/
def handlerMsg : Exc → String
  | Exc.connectionError => connRefusedMsg
  | Exc.timeout => timeoutMsg
  | Exc.httpError c => httpErrMsg c
  | _ => unknownMsg

/-- Body shared by all four `except` handlers of `call_api`:
`new_hist = list(chat_history)` (which itself raises `TypeError` when
`chat_history` is not iterable), `new_hist.append((user_msg, err_msg))`,
then `return user_msg, new_hist, state or {}, err_msg`. -/
def call_api_handler (user_msg chat_history state : Py) (err_msg : String) :
    Except Exc (Py × Py × Py × Py) :=
  match pyListOf chat_history with
  | Except.error e => Except.error e
  | Except.ok xs =>
      Except.ok
        ( user_msg,
          Py.list (xs ++ [Py.tuple [user_msg, Py.str err_msg]]),
          pyOr state (Py.dict []),
          Py.str err_msg )

/-- `call_api`: build the payload, POST it (the environment `post` maps the
payload to the network outcome), and run the `try`/`except` structure.  An
`Except.error` result models an exception escaping `call_api` (only
possible from inside a handler). -/
def call_api (user_msg chat_history mode use_history state : Py)
    (post : Py → PostOutcome) : Except Exc (Py × Py × Py × Py) :=
  let payload := call_api_payload user_msg chat_history mode use_history state
  match call_api_try user_msg chat_history state (post payload) with
  | Except.ok r => Except.ok r
  | Except.error e => call_api_handler user_msg chat_history state (handlerMsg e)

/-! ### Heap model for the transcript list

The exception handlers of `call_api` (lines 122-123, 128-129, 134-135,
140-141) are the only statements in `app.py` that perform list operations on
the caller's transcript: `new_hist = list(chat_history)` followed by
`new_hist.append(...)`.  To state that the caller's list object is not
mutated, we model Python lists as heap cells and run exactly those two
statements against the heap. -/

/-- A reference to a Python list object: an index into the heap. -/
abbrev Ref := Nat

/-- The heap of live Python list objects; cell `r` holds the elements of
the list that reference `r` points to. -/
structure ListHeap where
  cells : List (List Py)

/-- Dereference: the contents of the list object at `r`. -/
def ListHeap.get (h : ListHeap) (r : Ref) : List Py := h.cells.getD r []

/-- Allocate a fresh list object with contents `xs`; its reference is the
previous heap size, hence distinct from every live reference. -/
def ListHeap.alloc (h : ListHeap) (xs : List Py) : ListHeap × Ref :=
  (⟨h.cells ++ [xs]⟩, h.cells.length)

/-- In-place update of the list object at `r` (what `append` does). -/
def ListHeap.setCell (h : ListHeap) (r : Ref) (xs : List Py) : ListHeap :=
  ⟨h.cells.set r xs⟩

/-- The heap effect of one `except` handler of `call_api` on the transcript:
`new_hist = list(chat_history)` allocates a fresh list object holding a copy
of the elements of `chat_history` (the object at `histRef`), and
`new_hist.append((user_msg, err_msg))` mutates only that fresh object.
Returns the new heap and the reference the handler returns as the
transcript. -/
def call_api_handler_heap (h : ListHeap) (user_msg : Py) (histRef : Ref)
    (err_msg : String) : ListHeap × Ref :=
  let copy := h.alloc (h.get histRef)
  let h2 := copy.1.setCell copy.2
    (copy.1.get copy.2 ++ [Py.tuple [user_msg, Py.str err_msg]])
  (h2, copy.2)

/-! ### Helper lemmas -/

/-- Python's `x or []` on a list value yields a value equal to `x` (the
guard only replaces the falsy empty list by an equal empty list). -/
theorem pyOr_list_nil (l : List Py) : pyOr (Py.list l) (Py.list []) = Py.list l := by
  cases l <;> simp [pyOr, Py.truthy]

/-- Python's `x or {}` on a dict value yields a value equal to `x`. -/
theorem pyOr_dict_nil (d : List (String × Py)) :
    pyOr (Py.dict d) (Py.dict []) = Py.dict d := by
  cases d <;> simp [pyOr, Py.truthy]

/-! ### Theorems about the claims -/

/-- Claim C7: the payload sent by `call_api` is built exactly from the five
inputs: `user_msg` is the input message verbatim (even empty),
`chat_history` the input transcript, `mode` the mode, `use_history` the
flag, and `state` the input state. -/
theorem call_api_payload_exact (m mode uh : Py) (l : List Py)
    (d : List (String × Py)) :
    call_api_payload m (Py.list l) mode uh (Py.dict d) =
      Py.dict
        [ ("user_msg", m), ("chat_history", Py.list l), ("mode", mode),
          ("use_history", uh), ("state", Py.dict d) ] := by
  simp [call_api_payload, pyOr_list_nil, pyOr_dict_nil]

/-- Claim C1: when the POST raises `Timeout`, `call_api` returns the input
message, the transcript with exactly one appended turn
`(m, "Backend took too long. Please try again later.")`, and that same
message as status. -/
theorem call_api_timeout (m mode uh st : Py) (l : List Py)
    (post : Py → PostOutcome)
    (hpost : post (call_api_payload m (Py.list l) mode uh st) =
      PostOutcome.raises Exc.timeout) :
    call_api m (Py.list l) mode uh st post =
      Except.ok
        ( m,
          Py.list (l ++ [Py.tuple [m, Py.str timeoutMsg]]),
          pyOr st (Py.dict []),
          Py.str timeoutMsg ) := by
  simp [call_api, hpost, call_api_try, call_api_handler, handlerMsg, pyListOf]

/-- Witness for C1 at a concrete input. -/
theorem call_api_timeout_witness :
    call_api (Py.str "hi") (Py.list []) (Py.str "SFT_RAG") (Py.bool false)
      (Py.dict [("session_id", Py.str ""), ("memory", Py.list [])])
      (fun _ => PostOutcome.raises Exc.timeout) =
      Except.ok
        ( Py.str "hi",
          Py.list [Py.tuple [Py.str "hi", Py.str timeoutMsg]],
          Py.dict [("session_id", Py.str ""), ("memory", Py.list [])],
          Py.str timeoutMsg ) := by
  simpa [pyOr, Py.truthy] using
    call_api_timeout (Py.str "hi") (Py.str "SFT_RAG") (Py.bool false)
      (Py.dict [("session_id", Py.str ""), ("memory", Py.list [])]) []
      (fun _ => PostOutcome.raises Exc.timeout) rfl

/-- Claim C2: `call_api` never raises — for every message, list-valued
transcript, mode, flag, state and network behaviour, it returns a
well-formed 4-tuple (the only raising operation reachable from a handler,
`list(chat_history)`, succeeds on a list). -/
theorem call_api_never_raises (m mode uh st : Py) (l : List Py)
    (post : Py → PostOutcome) :
    ∃ r, call_api m (Py.list l) mode uh st post = Except.ok r := by
  unfold call_api
  cases h : call_api_try m (Py.list l) st
      (post (call_api_payload m (Py.list l) mode uh st)) with
  | ok r => exact ⟨r, by simp [h]⟩
  | error e =>
    exact ⟨( m, Py.list (l ++ [Py.tuple [m, Py.str (handlerMsg e)]]),
             pyOr st (Py.dict []), Py.str (handlerMsg e) ),
           by simp [h, call_api_handler, pyListOf]⟩

/-- The readiness condition as the spec words it: the request succeeded
with a response, the HTTP status indicates success (`resp.ok`, i.e.
status < 400), and the JSON body is an object whose `status` field is
exactly the string `"ok"`. -/
def readySpec : GetOutcome → Bool
  | GetOutcome.resp s (Option.some (Py.dict kvs)) =>
      respOk s && pyEqStr (dictGet kvs "status" Py.none) "ok"
  | _ => false

/-- Claim C3: `check_backend` answers `"backend=READY"` exactly when the
call yields a response with a success status and a JSON object body whose
`status` field is the string `"ok"`; every other outcome — an exception, a
non-success status, or any other JSON shape — answers `"backend=DOWN"`. -/
theorem check_backend_ready_iff (oc : GetOutcome) :
    check_backend oc =
      if readySpec oc then "backend=READY" else "backend=DOWN" := by
  match oc with
  | GetOutcome.raises e => rfl
  | GetOutcome.resp s body =>
    match body with
    | Option.none =>
      by_cases h4 : 400 ≤ s ∧ s < 600 <;>
        by_cases hok : s < 400 <;>
          simp [check_backend, check_backend_try, raise_for_status, h4, hok,
            readySpec, respOk, respJson]
    | Option.some v =>
      by_cases hok : s < 400
      · have h4 : ¬ (400 ≤ s ∧ s < 600) := by omega
        cases v <;>
          simp [check_backend, check_backend_try, raise_for_status, h4,
            readySpec, respOk, hok, respJson]
        rename_i kvs
        cases hb : pyEqStr (dictGet kvs "status" Py.none) "ok" <;> simp [hb]
      · have h4 : (400 ≤ s ∧ s < 600) ∨ ¬ (400 ≤ s ∧ s < 600) := by omega
        have hspec : respOk s = false := by
          simp [respOk]; omega
        cases v <;>
          rcases h4 with h4 | h4 <;>
            simp [check_backend, check_backend_try, raise_for_status, h4,
              readySpec, respOk, hok, hspec, respJson]

/-- Whether a Python value is a non-empty list. -/
def pyIsNonemptyList : Py → Bool
  | Py.list (_ :: _) => true
  | _ => false

/-- Counterexample to claim C4 as stated: a successful response whose JSON
body is the empty list makes `fetch_sample_questions` return the empty
list, so the success path does not always yield a non-empty list. -/
theorem fetch_sample_questions_empty_ce :
    fetch_sample_questions (GetOutcome.resp 200 (Option.some (Py.list []))) =
      Py.list [] ∧
    pyIsNonemptyList
        (fetch_sample_questions
          (GetOutcome.resp 200 (Option.some (Py.list [])))) = false :=
  ⟨rfl, rfl⟩

/-- The amended behaviour of `fetch_sample_questions`, written from the
spec's words: a response whose status escapes `raise_for_status` (outside
400-599) and whose JSON body is a list yields that body list verbatim;
every other outcome (exception, 400-599 status, unparsable or non-list
body) yields the fixed fallback. -/
def sampleQuestionsSpec : GetOutcome → Py
  | GetOutcome.resp s (Option.some (Py.list xs)) =>
      if 400 ≤ s ∧ s < 600 then fallbackPy else Py.list xs
  | _ => fallbackPy

/-- Claim C4 (amended): `fetch_sample_questions` returns the same fixed
six-item (hence non-empty) fallback list on every failure path, and on the
success path returns the body list verbatim — so its result is empty
exactly when the body list is empty. -/
theorem fetch_sample_questions_fallback_or_body (oc : GetOutcome) :
    fallback_questions.length = 6 ∧ pyIsNonemptyList fallbackPy = true ∧
    fetch_sample_questions oc = sampleQuestionsSpec oc := by
  refine ⟨rfl, rfl, ?_⟩
  match oc with
  | GetOutcome.raises e => rfl
  | GetOutcome.resp s body =>
    match body with
    | Option.none =>
      by_cases h4 : 400 ≤ s ∧ s < 600 <;>
        simp [fetch_sample_questions, sampleQuestionsSpec, raise_for_status,
          h4, respJson]
    | Option.some v =>
      cases v <;>
        by_cases h4 : 400 ≤ s ∧ s < 600 <;>
          simp [fetch_sample_questions, sampleQuestionsSpec, raise_for_status,
            h4, respJson]

/-- Claim C5: on every failure of the chat call (any exception escaping the
`try` block, i.e. any of the four classified kinds), `call_api` returns the
input session state unchanged in the third position of the tuple. -/
theorem call_api_failure_state (m mode uh : Py) (l : List Py)
    (d : List (String × Py)) (post : Py → PostOutcome) (e : Exc)
    (hfail : call_api_try m (Py.list l) (Py.dict d)
        (post (call_api_payload m (Py.list l) mode uh (Py.dict d))) =
      Except.error e) :
    ∃ r, call_api m (Py.list l) mode uh (Py.dict d) post = Except.ok r ∧
      r.2.2.1 = Py.dict d := by
  refine ⟨( m, Py.list (l ++ [Py.tuple [m, Py.str (handlerMsg e)]]),
            Py.dict d, Py.str (handlerMsg e) ), ?_, rfl⟩
  simp [call_api, hfail, call_api_handler, pyListOf, pyOr_dict_nil]

/-- Witness for C5 at a concrete input: a connection-refused failure
returns the input state `{"session_id": ""}` unchanged. -/
theorem call_api_failure_state_witness :
    ∃ r, call_api (Py.str "q") (Py.list []) (Py.str "BASE") (Py.bool true)
        (Py.dict [("session_id", Py.str "")])
        (fun _ => PostOutcome.raises Exc.connectionError) = Except.ok r ∧
      r.2.2.1 = Py.dict [("session_id", Py.str "")] :=
  call_api_failure_state (Py.str "q") (Py.str "BASE") (Py.bool true) []
    [("session_id", Py.str "")]
    (fun _ => PostOutcome.raises Exc.connectionError) Exc.connectionError rfl

/-- Claim C6: on a successful chat call with a JSON-object body, `call_api`
returns the `data.get` values with the inputs as defaults; hence an absent
`state` key yields the input state itself, an absent `chat_history` key the
input transcript, and an absent `status` key the empty string. -/
theorem call_api_success_fallbacks (m ch mode uh st : Py)
    (post : Py → PostOutcome) (s : Nat) (red : Bool)
    (kvs : List (String × Py))
    (hpost : post (call_api_payload m ch mode uh st) =
      PostOutcome.resp s red (Option.some (Py.dict kvs)))
    (hs : ¬ (400 ≤ s ∧ s < 600)) :
    call_api m ch mode uh st post =
      Except.ok
        ( m, dictGet kvs "chat_history" ch, dictGet kvs "state" st,
          dictGet kvs "status" (Py.str "") ) ∧
    (kvs.find? (fun p => p.1 == "state") = Option.none →
      dictGet kvs "state" st = st) ∧
    (kvs.find? (fun p => p.1 == "chat_history") = Option.none →
      dictGet kvs "chat_history" ch = ch) ∧
    (kvs.find? (fun p => p.1 == "status") = Option.none →
      dictGet kvs "status" (Py.str "") = Py.str "") := by
  refine ⟨?_, ?_, ?_, ?_⟩
  · simp [call_api, hpost, call_api_try, raise_for_status, hs, respJson]
  · intro h; simp [dictGet, h]
  · intro h; simp [dictGet, h]
  · intro h; simp [dictGet, h]

/-- Witness for C6 at a concrete input: a 200 response with body `{}` makes
`call_api` fall back to the input transcript, the input state, and the
empty status string. -/
theorem call_api_success_fallbacks_witness :
    call_api (Py.str "m") (Py.list [Py.tuple [Py.str "a", Py.str "b"]])
      (Py.str "SFT") (Py.bool false) (Py.dict [("session_id", Py.str "x")])
      (fun _ => PostOutcome.resp 200 false (Option.some (Py.dict []))) =
      Except.ok
        ( Py.str "m", Py.list [Py.tuple [Py.str "a", Py.str "b"]],
          Py.dict [("session_id", Py.str "x")], Py.str "" ) := by
  have h := call_api_success_fallbacks (Py.str "m")
    (Py.list [Py.tuple [Py.str "a", Py.str "b"]]) (Py.str "SFT")
    (Py.bool false) (Py.dict [("session_id", Py.str "x")])
    (fun _ => PostOutcome.resp 200 false (Option.some (Py.dict []))) 200 false
    [] rfl (by decide)
  simpa [dictGet] using h.1

/-- Claim C8: each classified failure kind of the chat call maps to its
fixed message, used both as the appended assistant text and as the status:
connection refused, timeout, HTTP error with the numeric status code
embedded in the text, and the generic unknown-client-error message. -/
theorem call_api_error_messages (m mode uh st : Py) (l : List Py)
    (post : Py → PostOutcome) :
    (post (call_api_payload m (Py.list l) mode uh st) =
        PostOutcome.raises Exc.connectionError →
      call_api m (Py.list l) mode uh st post =
        Except.ok
          ( m, Py.list (l ++ [Py.tuple [m, Py.str connRefusedMsg]]),
            pyOr st (Py.dict []), Py.str connRefusedMsg )) ∧
    (post (call_api_payload m (Py.list l) mode uh st) =
        PostOutcome.raises Exc.timeout →
      call_api m (Py.list l) mode uh st post =
        Except.ok
          ( m, Py.list (l ++ [Py.tuple [m, Py.str timeoutMsg]]),
            pyOr st (Py.dict []), Py.str timeoutMsg )) ∧
    (∀ s red body,
      post (call_api_payload m (Py.list l) mode uh st) =
        PostOutcome.resp s red body →
      400 ≤ s → s < 600 →
      call_api m (Py.list l) mode uh st post =
        Except.ok
          ( m,
            Py.list (l ++ [Py.tuple [m,
              Py.str ("Backend returned HTTP Error : " ++ toString s ++ ".")]]),
            pyOr st (Py.dict []),
            Py.str ("Backend returned HTTP Error : " ++ toString s ++ ".") )) ∧
    (post (call_api_payload m (Py.list l) mode uh st) =
        PostOutcome.raises Exc.other →
      call_api m (Py.list l) mode uh st post =
        Except.ok
          ( m, Py.list (l ++ [Py.tuple [m, Py.str unknownMsg]]),
            pyOr st (Py.dict []), Py.str unknownMsg )) := by
  refine ⟨?_, ?_, ?_, ?_⟩
  · intro hpost
    simp [call_api, hpost, call_api_try, call_api_handler, handlerMsg,
      pyListOf]
  · intro hpost
    simp [call_api, hpost, call_api_try, call_api_handler, handlerMsg,
      pyListOf]
  · intro s red body hpost hge hlt
    have h4 : 400 ≤ s ∧ s < 600 := ⟨hge, hlt⟩
    simp [call_api, hpost, call_api_try, call_api_handler, handlerMsg,
      pyListOf, raise_for_status, h4, httpErrMsg]
  · intro hpost
    simp [call_api, hpost, call_api_try, call_api_handler, handlerMsg,
      pyListOf]

/-- Witness for C8 at concrete inputs: one run per failure kind, with the
HTTP-error run showing the literal status code 503 in the message. -/
theorem call_api_error_messages_witness :
    call_api (Py.str "a") (Py.list []) (Py.str "SFT") (Py.bool false)
      (Py.dict []) (fun _ => PostOutcome.raises Exc.connectionError) =
      Except.ok
        ( Py.str "a", Py.list [Py.tuple [Py.str "a", Py.str connRefusedMsg]],
          Py.dict [], Py.str connRefusedMsg ) ∧
    call_api (Py.str "a") (Py.list []) (Py.str "SFT") (Py.bool false)
      (Py.dict []) (fun _ => PostOutcome.raises Exc.timeout) =
      Except.ok
        ( Py.str "a", Py.list [Py.tuple [Py.str "a", Py.str timeoutMsg]],
          Py.dict [], Py.str timeoutMsg ) ∧
    call_api (Py.str "a") (Py.list []) (Py.str "SFT") (Py.bool false)
      (Py.dict []) (fun _ => PostOutcome.resp 503 false Option.none) =
      Except.ok
        ( Py.str "a",
          Py.list [Py.tuple [Py.str "a",
            Py.str "Backend returned HTTP Error : 503."]],
          Py.dict [], Py.str "Backend returned HTTP Error : 503." ) ∧
    call_api (Py.str "a") (Py.list []) (Py.str "SFT") (Py.bool false)
      (Py.dict []) (fun _ => PostOutcome.raises Exc.other) =
      Except.ok
        ( Py.str "a", Py.list [Py.tuple [Py.str "a", Py.str unknownMsg]],
          Py.dict [], Py.str unknownMsg ) := by
  refine ⟨?_, ?_, ?_, ?_⟩
  · simpa [pyOr, Py.truthy] using
      (call_api_error_messages (Py.str "a") (Py.str "SFT") (Py.bool false)
        (Py.dict []) []
        (fun _ => PostOutcome.raises Exc.connectionError)).1 rfl
  · simpa [pyOr, Py.truthy] using
      (call_api_error_messages (Py.str "a") (Py.str "SFT") (Py.bool false)
        (Py.dict []) [] (fun _ => PostOutcome.raises Exc.timeout)).2.1 rfl
  · simpa [pyOr, Py.truthy] using
      (call_api_error_messages (Py.str "a") (Py.str "SFT") (Py.bool false)
        (Py.dict []) []
        (fun _ => PostOutcome.resp 503 false Option.none)).2.2.1 503 false
        Option.none rfl (by decide) (by decide)
  · simpa [pyOr, Py.truthy] using
      (call_api_error_messages (Py.str "a") (Py.str "SFT") (Py.bool false)
        (Py.dict []) [] (fun _ => PostOutcome.raises Exc.other)).2.2.2 rfl

/-- Claim C9: on every successful chat call the first component of the
returned tuple is the input user message, for every message value including
the empty string. -/
theorem call_api_success_user_msg (m ch mode uh st : Py)
    (post : Py → PostOutcome) (s : Nat) (red : Bool)
    (kvs : List (String × Py))
    (hpost : post (call_api_payload m ch mode uh st) =
      PostOutcome.resp s red (Option.some (Py.dict kvs)))
    (hs : ¬ (400 ≤ s ∧ s < 600)) :
    ∃ hist st2 status,
      call_api m ch mode uh st post = Except.ok (m, hist, st2, status) :=
  ⟨ dictGet kvs "chat_history" ch, dictGet kvs "state" st,
    dictGet kvs "status" (Py.str ""),
    by simp [call_api, hpost, call_api_try, raise_for_status, hs, respJson] ⟩

/-- Witness for C9 at a concrete input with the empty user message. -/
theorem call_api_success_user_msg_witness :
    ∃ hist st2 status,
      call_api (Py.str "") (Py.list []) (Py.str "SFT_RAG") (Py.bool false)
        (Py.dict [])
        (fun _ => PostOutcome.resp 200 false
          (Option.some (Py.dict [("status", Py.str "ok")]))) =
        Except.ok (Py.str "", hist, st2, status) :=
  call_api_success_user_msg (Py.str "") (Py.list []) (Py.str "SFT_RAG")
    (Py.bool false) (Py.dict [])
    (fun _ => PostOutcome.resp 200 false
      (Option.some (Py.dict [("status", Py.str "ok")])))
    200 false [("status", Py.str "ok")] rfl (by decide)

/-- Claim C10: the exception handlers of `call_api` append the synthetic
turn to a fresh copy of the transcript: after the handler runs, the
caller's list object holds exactly its old elements, the returned reference
is a different object, and that object holds the old elements with the one
appended turn. -/
theorem call_api_handler_no_mutation (h : ListHeap) (m : Py) (histRef : Ref)
    (err : String) (hlt : histRef < h.cells.length) :
    (call_api_handler_heap h m histRef err).1.get histRef = h.get histRef ∧
    (call_api_handler_heap h m histRef err).1.get
        (call_api_handler_heap h m histRef err).2 =
      h.get histRef ++ [Py.tuple [m, Py.str err]] ∧
    (call_api_handler_heap h m histRef err).2 ≠ histRef := by
  have hne : h.cells.length ≠ histRef := Nat.ne_of_gt hlt
  refine ⟨?_, ?_, hne⟩
  · simp [call_api_handler_heap, ListHeap.alloc, ListHeap.setCell,
      ListHeap.get, List.getD_eq_getElem?_getD, List.getElem?_set_ne hne,
      List.getElem?_append_left hlt]
  · have hlen : h.cells.length < (h.cells ++ [h.get histRef]).length := by
      simp
    simp [call_api_handler_heap, ListHeap.alloc, ListHeap.setCell,
      ListHeap.get, List.getD_eq_getElem?_getD,
      List.getElem?_set_self hlen, List.getElem?_concat_length]

/-- Witness for C10 on a concrete heap with one live transcript object. -/
theorem call_api_handler_no_mutation_witness :
    (call_api_handler_heap ⟨[[Py.str "t"]]⟩ (Py.str "m") 0 "e").1.get 0 =
      ListHeap.get ⟨[[Py.str "t"]]⟩ 0 ∧
    (call_api_handler_heap ⟨[[Py.str "t"]]⟩ (Py.str "m") 0 "e").1.get
        (call_api_handler_heap ⟨[[Py.str "t"]]⟩ (Py.str "m") 0 "e").2 =
      ListHeap.get ⟨[[Py.str "t"]]⟩ 0 ++
        [Py.tuple [Py.str "m", Py.str "e"]] ∧
    (call_api_handler_heap ⟨[[Py.str "t"]]⟩ (Py.str "m") 0 "e").2 ≠ 0 :=
  call_api_handler_no_mutation ⟨[[Py.str "t"]]⟩ (Py.str "m") 0 "e"
    (by simp)

end BrahmaanuUI
